import Mathlib

/-!
Shallow embedding of the SPH transport-velocity operators of
`transport_velocity_free_of_NumberDensity.py` and the inlet extrapolation
operator of `flow_past_cyl.py`.

Each pysph `Equation` class is modelled by pure functions over a linear
ordered field: the `initialize` phase becomes `initPhase` (a function from
the previous per-destination accumulator state to the reset state), the
`loop` phase becomes a fold step over a list of per-neighbor pair records,
and `post_loop` keeps its name.  Machine floats are modelled by exact field
arithmetic (`ℚ` for concrete evaluation, `ℝ` where `sin` is involved);
division is the field's total division.  The float literals `1e-12` and
`1e-14` guarding normalisation are modelled as `1 / 10 ^ 12` and
`1 / 10 ^ 14`.
-/

section Operators

variable {α : Type} [LinearOrderedField α]

/-- Per-pair data seen by `SetWallVelocity.loop`: the source (fluid)
velocity components `s_u, s_v, s_w` and the kernel weight `WIJ`. -/
structure SWVNb (α : Type) where
  u : α
  v : α
  w : α
  WIJ : α
  deriving Repr, DecidableEq

/-- Destination (wall) particle scalars read by `SetWallVelocity.post_loop`:
the prescribed wall velocity `d_u, d_v, d_w`. -/
structure SWVDest (α : Type) where
  u : α
  v : α
  w : α
  deriving Repr, DecidableEq

/-- Destination accumulator state written by `SetWallVelocity`: filtered
velocity `uf, vf, wf`, accumulated kernel weight `wij`, and ghost velocity
`ug, vg, wg`. -/
structure SWVAcc (α : Type) where
  uf : α
  vf : α
  wf : α
  wij : α
  ug : α
  vg : α
  wg : α
  deriving Repr, DecidableEq

/-- `SetWallVelocity.initialize`: zero the filtered velocity and the
accumulated kernel weight (the ghost velocity is untouched here). -/
def SetWallVelocity.initPhase (s : SWVAcc α) : SWVAcc α :=
  { s with uf := 0, vf := 0, wf := 0, wij := 0 }

/-- `SetWallVelocity.loop`: accumulate the kernel weight and the
kernel-weighted source velocities. -/
def SetWallVelocity.loop (s : SWVAcc α) (n : SWVNb α) : SWVAcc α :=
  { s with
    wij := s.wij + n.WIJ
    uf := s.uf + n.u * n.WIJ
    vf := s.vf + n.v * n.WIJ
    wf := s.wf + n.w * n.WIJ }

/-- `SetWallVelocity.post_loop`: normalise the filtered velocity when the
accumulated weight exceeds `1e-12`, then assign the ghost velocity
`ug = 2*u - uf` (and likewise `vg`, `wg`). -/
def SetWallVelocity.post_loop (d : SWVDest α) (s : SWVAcc α) : SWVAcc α :=
  let s' := if s.wij > 1 / 10 ^ 12 then
      { s with uf := s.uf / s.wij, vf := s.vf / s.wij, wf := s.wf / s.wij }
    else s
  { s' with
    ug := 2 * d.u - s'.uf
    vg := 2 * d.v - s'.vf
    wg := 2 * d.w - s'.wf }

/-- One full engine pass of `SetWallVelocity` over a destination particle:
`initialize`, `loop` over every neighbor, then `post_loop`. -/
def SetWallVelocity.run (d : SWVDest α) (ns : List (SWVNb α))
    (s0 : SWVAcc α) : SWVAcc α :=
  SetWallVelocity.post_loop d
    (ns.foldl SetWallVelocity.loop (SetWallVelocity.initPhase s0))

/-- Constructor-time configuration of `StateEquation` (`__init__` simply
stores `p0`, `rho0`, `b`). -/
structure StateEquationCfg (α : Type) where
  p0 : α
  rho0 : α
  b : α
  deriving Repr, DecidableEq

/-- `StateEquation.__init__`: store the parameters; no validation is
performed. -/
def StateEquation.ofParams (p0 rho0 : α) (b : α := 1) : StateEquationCfg α :=
  { p0 := p0, rho0 := rho0, b := b }

/-- `StateEquation.loop`: `p = p0 * (rho/rho0 - b)`. -/
def StateEquation.loop (c : StateEquationCfg α) (rho : α) : α :=
  c.p0 * (rho / c.rho0 - c.b)

/-- Constructor-time configuration of `SolidWallPressureBC` (`__init__`
stores `rho0`, `p0`, `b` and the body force `gx, gy, gz`). -/
structure SWPBCCfg (α : Type) where
  rho0 : α
  p0 : α
  b : α
  gx : α
  gy : α
  gz : α
  deriving Repr, DecidableEq

/-- `SolidWallPressureBC.__init__`: store the parameters; no validation is
performed. -/
def SolidWallPressureBC.ofParams (rho0 p0 : α) (b : α := 1)
    (gx : α := 0) (gy : α := 0) (gz : α := 0) : SWPBCCfg α :=
  { rho0 := rho0, p0 := p0, b := b, gx := gx, gy := gy, gz := gz }

/-- Per-pair data seen by `SolidWallPressureBC.loop`: source pressure
`s_p`, source density `s_rho`, kernel weight `WIJ` and the relative
position `XIJ`. -/
structure SWPBCNb (α : Type) where
  s_p : α
  s_rho : α
  WIJ : α
  x1 : α
  x2 : α
  x3 : α
  deriving Repr, DecidableEq

/-- Destination accumulator state of `SolidWallPressureBC`: extrapolated
pressure `p`, accumulated kernel weight `wij`, and the density `rho` set in
`post_loop`. -/
structure SWPBCAcc (α : Type) where
  p : α
  wij : α
  rho : α
  deriving Repr, DecidableEq

/-- `SolidWallPressureBC.initialize`: zero the pressure and the accumulated
kernel weight. -/
def SolidWallPressureBC.initPhase (s : SWPBCAcc α) : SWPBCAcc α :=
  { s with p := 0, wij := 0 }

/-- `SolidWallPressureBC.loop`: accumulate `s_p*WIJ + s_rho*gdotxij*WIJ`
into the pressure and `WIJ` into the weight, where `gdotxij` uses the
prescribed wall accelerations `au, av, aw`. -/
def SolidWallPressureBC.loop (c : SWPBCCfg α) (au av aw : α)
    (s : SWPBCAcc α) (n : SWPBCNb α) : SWPBCAcc α :=
  let gdotxij := (c.gx - au) * n.x1 + (c.gy - av) * n.x2 + (c.gz - aw) * n.x3
  { s with
    p := s.p + n.s_p * n.WIJ + n.s_rho * gdotxij * n.WIJ
    wij := s.wij + n.WIJ }

/-- `SolidWallPressureBC.post_loop`: normalise the pressure when the
accumulated weight exceeds `1e-14`, then set the density from the inverted
state equation `rho = rho0 * (p/p0 + b)`. -/
def SolidWallPressureBC.post_loop (c : SWPBCCfg α) (s : SWPBCAcc α) :
    SWPBCAcc α :=
  let s' := if s.wij > 1 / 10 ^ 14 then { s with p := s.p / s.wij } else s
  { s' with rho := c.rho0 * (s'.p / c.p0 + c.b) }

/-- One full engine pass of `SolidWallPressureBC` over a destination
particle. -/
def SolidWallPressureBC.run (c : SWPBCCfg α) (au av aw : α)
    (ns : List (SWPBCNb α)) (s0 : SWPBCAcc α) : SWPBCAcc α :=
  SolidWallPressureBC.post_loop c
    (ns.foldl (SolidWallPressureBC.loop c au av aw)
      (SolidWallPressureBC.initPhase s0))

/-- Per-pair data seen by `ExtrapolateUhat.loop` (from `flow_past_cyl.py`):
the source transport velocity `s_uhat` and the kernel weight `WIJ`. -/
structure EUNb (α : Type) where
  s_uhat : α
  WIJ : α
  deriving Repr, DecidableEq

/-- Destination accumulator state of `ExtrapolateUhat`: transport velocity
`uhat` and accumulated kernel weight `wij`. -/
structure EUAcc (α : Type) where
  uhat : α
  wij : α
  deriving Repr, DecidableEq

/-- `ExtrapolateUhat.initialize`: zero both accumulators. -/
def ExtrapolateUhat.initPhase (_s : EUAcc α) : EUAcc α :=
  { uhat := 0, wij := 0 }

/-- `ExtrapolateUhat.loop`: accumulate `s_uhat*WIJ` and `WIJ`. -/
def ExtrapolateUhat.loop (s : EUAcc α) (n : EUNb α) : EUAcc α :=
  { uhat := s.uhat + n.s_uhat * n.WIJ, wij := s.wij + n.WIJ }

/-- `ExtrapolateUhat.post_loop`: normalise `uhat` when the accumulated
weight exceeds `1e-14`. -/
def ExtrapolateUhat.post_loop (s : EUAcc α) : EUAcc α :=
  if s.wij > 1 / 10 ^ 14 then { s with uhat := s.uhat / s.wij } else s

/-- One full engine pass of `ExtrapolateUhat`. -/
def ExtrapolateUhat.run (ns : List (EUNb α)) (s0 : EUAcc α) : EUAcc α :=
  ExtrapolateUhat.post_loop (ns.foldl ExtrapolateUhat.loop
    (ExtrapolateUhat.initPhase s0))

/-- Per-pair data seen by `ContinuityEquation.loop`: source mass and
density, the pair velocity difference `VIJ`, and the kernel gradient
`DWIJ`. -/
structure CENb (α : Type) where
  s_m : α
  s_rho : α
  v1 : α
  v2 : α
  v3 : α
  dw1 : α
  dw2 : α
  dw3 : α
  deriving Repr, DecidableEq

/-- `ContinuityEquation.initialize`: zero the density-rate accumulator. -/
def ContinuityEquation.initPhase (_arho : α) : α := 0

/-- `ContinuityEquation.loop`:
`arho += d_rho * (VIJ·DWIJ) * s_m / s_rho`. -/
def ContinuityEquation.loop (d_rho : α) (arho : α) (n : CENb α) : α :=
  let vijdotdwij := n.v1 * n.dw1 + n.v2 * n.dw2 + n.v3 * n.dw3
  arho + d_rho * vijdotdwij * n.s_m / n.s_rho

/-- Destination scalars read by the wall-interaction loops: density and
velocity of the destination particle. -/
structure WallDest (α : Type) where
  rho : α
  u : α
  v : α
  w : α
  deriving Repr, DecidableEq

/-- Per-pair data seen by `ContinuitySolid.loop`: source mass and density,
source ghost velocity `ug, vg, wg`, and the kernel gradient. -/
structure CSNb (α : Type) where
  s_m : α
  s_rho : α
  ug : α
  vg : α
  wg : α
  dw1 : α
  dw2 : α
  dw3 : α
  deriving Repr, DecidableEq

/-- `ContinuitySolid.loop`: accumulate `rho_i * Vj * (vij·DWIJ)` where the
pair velocity uses the source ghost velocity.  Note the class defines no
`initialize` phase: the incoming accumulator is the base of the sum. -/
def ContinuitySolid.loop (d : WallDest α) (arho : α) (n : CSNb α) : α :=
  let Vj := n.s_m / n.s_rho
  let rhoi := d.rho
  let uij := d.u - n.ug
  let vij := d.v - n.vg
  let wij := d.w - n.wg
  let vij_dot_dwij := uij * n.dw1 + vij * n.dw2 + wij * n.dw3
  arho + rhoi * Vj * vij_dot_dwij

/-- The per-pair contribution of `ContinuitySolid.loop` (the amount added
to the accumulator by one pair). -/
def ContinuitySolid.contrib (d : WallDest α) (n : CSNb α) : α :=
  d.rho * (n.s_m / n.s_rho) *
    ((d.u - n.ug) * n.dw1 + (d.v - n.vg) * n.dw2 + (d.w - n.wg) * n.dw3)

/-- One engine pass of `ContinuitySolid`: the class has no `initialize`, so
the pass is the bare fold of `loop` from the incoming accumulator value. -/
def ContinuitySolid.run (d : WallDest α) (ns : List (CSNb α))
    (arho0 : α) : α :=
  ns.foldl (ContinuitySolid.loop d) arho0

/-- Constructor-time configuration of `MomentumEquationPressureGradient`:
background pressure `pb`, body force `gx, gy, gz`, damping time `tdamp`. -/
structure MEPGCfg (α : Type) where
  pb : α
  gx : α
  gy : α
  gz : α
  tdamp : α
  deriving Repr, DecidableEq

/-- Destination scalars read by `MomentumEquationPressureGradient.loop`:
mass, density, pressure, inverse volume. -/
structure MEPGDest (α : Type) where
  m : α
  rho : α
  p : α
  V : α
  deriving Repr, DecidableEq

/-- Per-pair data for `MomentumEquationPressureGradient.loop`: source
density, pressure, inverse volume, and the kernel gradient. -/
structure MEPGNb (α : Type) where
  rho : α
  p : α
  V : α
  dw1 : α
  dw2 : α
  dw3 : α
  deriving Repr, DecidableEq

/-- Accumulator state of `MomentumEquationPressureGradient`: physical
acceleration `au, av, aw` and transport-velocity acceleration
`auhat, avhat, awhat`. -/
structure MEPGAcc (α : Type) where
  au : α
  av : α
  aw : α
  auhat : α
  avhat : α
  awhat : α
  deriving Repr, DecidableEq

/-- `MomentumEquationPressureGradient.initialize`: zero all six
acceleration accumulators. -/
def MomentumEquationPressureGradient.initPhase (_s : MEPGAcc α) :
    MEPGAcc α :=
  { au := 0, av := 0, aw := 0, auhat := 0, avhat := 0, awhat := 0 }

/-- `MomentumEquationPressureGradient.loop`: the density-weighted averaged
pressure `pij = (rhoj*p_i + rhoi*p_j)/(rhoj + rhoi)` scaled by
`-mi1*(Vi2+Vj2)` feeds the physical channel, and the background pressure
`pb` scaled the same way feeds the transport-velocity channel. -/
def MomentumEquationPressureGradient.loop (c : MEPGCfg α) (d : MEPGDest α)
    (s : MEPGAcc α) (n : MEPGNb α) : MEPGAcc α :=
  let rhoi := d.rho
  let rhoj := n.rho
  let p_i := d.p
  let p_j := n.p
  let pij := (rhoj * p_i + rhoi * p_j) / (rhoj + rhoi)
  let Vi := 1 / d.V
  let Vj := 1 / n.V
  let Vi2 := Vi * Vi
  let Vj2 := Vj * Vj
  let mi1 := 1 / d.m
  let tmp := -pij * mi1 * (Vi2 + Vj2)
  let tmp2 := -c.pb * mi1 * (Vi2 + Vj2)
  { au := s.au + tmp * n.dw1
    av := s.av + tmp * n.dw2
    aw := s.aw + tmp * n.dw3
    auhat := s.auhat + tmp2 * n.dw1
    avhat := s.avhat + tmp2 * n.dw2
    awhat := s.awhat + tmp2 * n.dw3 }

/-- Accumulator state for the three-component acceleration written by the
viscosity and artificial-viscosity loops. -/
structure Accel (α : Type) where
  au : α
  av : α
  aw : α
  deriving Repr, DecidableEq

/-- `MomentumEquationViscosity.initialize` (also the `initialize` of
`SolidWallNoSlipBC` and `MomentumEquationArtificialViscosity`): zero the
acceleration accumulators. -/
def MomentumEquationViscosity.initPhase (_s : Accel α) : Accel α :=
  { au := 0, av := 0, aw := 0 }

/-- Per-pair data for `MomentumEquationViscosity.loop`: source density and
mass, pair velocity difference `VIJ`, squared distance `R2IJ`, kernel
gradient `DWIJ` and relative position `XIJ`. -/
structure ViscNb (α : Type) where
  s_rho : α
  s_m : α
  v1 : α
  v2 : α
  v3 : α
  r2 : α
  dw1 : α
  dw2 : α
  dw3 : α
  x1 : α
  x2 : α
  x3 : α
  deriving Repr, DecidableEq

/-- `MomentumEquationViscosity.loop`: harmonic-mean dynamic viscosity
`etaij = 4*etai*etaj/(etai+etaj)` with `eta = nu*rho`, factor
`(s_m/(rho_i*rho_j)) * etaij * (DWIJ·XIJ)/(R2IJ+EPS)` applied to `VIJ`. -/
def MomentumEquationViscosity.loop (nu EPS : α) (d_rho : α)
    (s : Accel α) (n : ViscNb α) : Accel α :=
  let etai := nu * d_rho
  let etaj := nu * n.s_rho
  let etaij := 4 * (etai * etaj) / (etai + etaj)
  let xdotdij := n.dw1 * n.x1 + n.dw2 * n.x2 + n.dw3 * n.x3
  let tmp := n.s_m / (d_rho * n.s_rho)
  let fac := tmp * etaij * xdotdij / (n.r2 + EPS)
  { au := s.au + fac * n.v1
    av := s.av + fac * n.v2
    aw := s.aw + fac * n.v3 }

/-- One engine pass of `MomentumEquationViscosity` (`initialize` then all
`loop` calls; the class has no `post_loop`). -/
def MomentumEquationViscosity.run (nu EPS : α) (d_rho : α)
    (ns : List (ViscNb α)) (s0 : Accel α) : Accel α :=
  ns.foldl (MomentumEquationViscosity.loop nu EPS d_rho)
    (MomentumEquationViscosity.initPhase s0)

/-- Per-pair data for `SolidWallNoSlipBC.loop`: like `ViscNb` but carrying
the source ghost velocity `ug, vg, wg` instead of a pair velocity
difference. -/
structure NoSlipNb (α : Type) where
  s_rho : α
  s_m : α
  ug : α
  vg : α
  wg : α
  r2 : α
  dw1 : α
  dw2 : α
  dw3 : α
  x1 : α
  x2 : α
  x3 : α
  deriving Repr, DecidableEq

/-- `SolidWallNoSlipBC.loop`: same harmonic-viscosity factor as
`MomentumEquationViscosity.loop`, applied to the velocity difference
between the destination velocity and the source ghost velocity. -/
def SolidWallNoSlipBC.loop (nu EPS : α) (d : WallDest α)
    (s : Accel α) (n : NoSlipNb α) : Accel α :=
  let etai := nu * d.rho
  let etaj := nu * n.s_rho
  let etaij := 4 * (etai * etaj) / (etai + etaj)
  let xdotdij := n.dw1 * n.x1 + n.dw2 * n.x2 + n.dw3 * n.x3
  let tmp := n.s_m / (d.rho * n.s_rho)
  let fac := tmp * etaij * xdotdij / (n.r2 + EPS)
  { au := s.au + fac * (d.u - n.ug)
    av := s.av + fac * (d.v - n.vg)
    aw := s.aw + fac * (d.w - n.wg) }

/-- Per-pair data for `MomentumEquationArtificialViscosity.loop`: source
mass, inverse pair-averaged density `RHOIJ1`, squared distance, averaged
smoothing length `HIJ`, pair velocity difference, relative position and
kernel gradient. -/
structure AVNb (α : Type) where
  s_m : α
  RHOIJ1 : α
  r2 : α
  HIJ : α
  v1 : α
  v2 : α
  v3 : α
  x1 : α
  x2 : α
  x3 : α
  dw1 : α
  dw2 : α
  dw3 : α
  deriving Repr, DecidableEq

/-- `MomentumEquationArtificialViscosity.loop`: `piij` is zero unless the
pair is approaching (`VIJ·XIJ < 0`), in which case
`piij = s_m * (-alpha*c0*muij) * RHOIJ1` with
`muij = HIJ*(VIJ·XIJ)/(R2IJ+EPS)`; the accelerations receive
`-piij * DWIJ`. -/
def MomentumEquationArtificialViscosity.loop (alpha c0 EPS : α)
    (s : Accel α) (n : AVNb α) : Accel α :=
  let vijdotrij := n.v1 * n.x1 + n.v2 * n.x2 + n.v3 * n.x3
  let piij :=
    if vijdotrij < 0 then
      let muij := (n.HIJ * vijdotrij) / (n.r2 + EPS)
      n.s_m * (-alpha * c0 * muij) * n.RHOIJ1
    else 0
  { au := s.au + -piij * n.dw1
    av := s.av + -piij * n.dw2
    aw := s.aw + -piij * n.dw3 }

end Operators

/-- Damping factor of `MomentumEquationPressureGradient.post_loop`:
`0.5*(sin((-0.5 + t/tdamp)*pi) + 1)` while `t < tdamp`, and `1`
afterwards. -/
noncomputable def dampingFactor (tdamp t : ℝ) : ℝ :=
  if t < tdamp then 0.5 * (Real.sin ((-0.5 + t / tdamp) * Real.pi) + 1.0)
  else 1.0

/-- `MomentumEquationPressureGradient.post_loop`: add the body force to the
physical acceleration, scaled by the damping factor. -/
noncomputable def MomentumEquationPressureGradient.post_loop (c : MEPGCfg ℝ) (t : ℝ)
    (s : MEPGAcc ℝ) : MEPGAcc ℝ :=
  { s with
    au := s.au + c.gx * dampingFactor c.tdamp t
    av := s.av + c.gy * dampingFactor c.tdamp t
    aw := s.aw + c.gz * dampingFactor c.tdamp t }

/-- One full engine pass of `MomentumEquationPressureGradient`
(`initialize`, all `loop` calls, `post_loop`). -/
noncomputable def MomentumEquationPressureGradient.run (c : MEPGCfg ℝ) (d : MEPGDest ℝ)
    (ns : List (MEPGNb ℝ)) (t : ℝ) (s0 : MEPGAcc ℝ) : MEPGAcc ℝ :=
  MomentumEquationPressureGradient.post_loop c t
    (ns.foldl (MomentumEquationPressureGradient.loop c d)
      (MomentumEquationPressureGradient.initPhase s0))

/-- C1: a destination particle with no neighbors keeps each
weighted-average-normalized property at its `initialize`-seeded zero, and
in each of the three operators the accumulated weight is the seeded `0`,
which does not pass the strict guard — so the division branch is never
taken. -/
theorem no_neighbor_guard_preserves_seeded_values
    (d : SWVDest ℚ) (s0 : SWVAcc ℚ) (c : SWPBCCfg ℚ) (au av aw : ℚ)
    (t0 : SWPBCAcc ℚ) (e0 : EUAcc ℚ) :
    ((([] : List (SWVNb ℚ)).foldl SetWallVelocity.loop
        (SetWallVelocity.initPhase s0)).wij = 0 ∧
      ¬ (0 : ℚ) > 1 / 10 ^ 12 ∧
      (SetWallVelocity.run d [] s0).uf = 0 ∧
      (SetWallVelocity.run d [] s0).vf = 0 ∧
      (SetWallVelocity.run d [] s0).wf = 0) ∧
    ((([] : List (SWPBCNb ℚ)).foldl (SolidWallPressureBC.loop c au av aw)
        (SolidWallPressureBC.initPhase t0)).wij = 0 ∧
      ¬ (0 : ℚ) > 1 / 10 ^ 14 ∧
      (SolidWallPressureBC.run c au av aw [] t0).p = 0) ∧
    ((([] : List (EUNb ℚ)).foldl ExtrapolateUhat.loop
        (ExtrapolateUhat.initPhase e0)).wij = 0 ∧
      (ExtrapolateUhat.run [] e0).uhat = 0) := by
  refine ⟨⟨rfl, by norm_num, ?_, ?_, ?_⟩, ⟨rfl, by norm_num, ?_⟩, ⟨rfl, ?_⟩⟩ <;>
    simp [SetWallVelocity.run, SetWallVelocity.initPhase,
      SetWallVelocity.post_loop, SolidWallPressureBC.run,
      SolidWallPressureBC.initPhase, SolidWallPressureBC.post_loop,
      ExtrapolateUhat.run, ExtrapolateUhat.initPhase,
      ExtrapolateUhat.post_loop]

/-- C2 counterexample: with `p0 = 1 ≠ 0` but `rho0 = 0`, the round trip
does not recover `rho = 1`: the state equation produces `p = 1*(1/0 - 1)`
(junk division by the zero reference density) and the wall-pressure
inversion returns `0*(p/1 + 1) = 0 ≠ 1`. -/
theorem stateEq_roundtrip_fails_at_zero_rho0 :
    ¬ ((SolidWallPressureBC.post_loop (SolidWallPressureBC.ofParams 0 1 1)
        { p := StateEquation.loop (StateEquation.ofParams 1 0 1) 1,
          wij := 0, rho := 0 } : SWPBCAcc ℚ).rho = 1) := by
  norm_num [SolidWallPressureBC.post_loop, SolidWallPressureBC.ofParams,
    StateEquation.loop, StateEquation.ofParams]

/-- C2 (amended): for `p0 ≠ 0` and `rho0 ≠ 0`, computing the pressure via
`StateEquation.loop` and feeding it to the wall-pressure inversion of
`SolidWallPressureBC.post_loop` (with the same constants, and an
accumulated weight of `0` so the guarded normalisation is skipped)
recovers the density exactly, for every `b`. -/
theorem stateEq_roundtrip_recovers_rho
    (p0 rho0 b rho gx gy gz r0 : ℚ) (hp0 : p0 ≠ 0) (hrho0 : rho0 ≠ 0) :
    (SolidWallPressureBC.post_loop
        (SolidWallPressureBC.ofParams rho0 p0 b gx gy gz)
        { p := StateEquation.loop (StateEquation.ofParams p0 rho0 b) rho,
          wij := 0, rho := r0 }).rho = rho := by
  have hguard : ¬ ((0 : ℚ) > 1 / 10 ^ 14) := by norm_num
  simp only [SolidWallPressureBC.post_loop, SolidWallPressureBC.ofParams,
    StateEquation.loop, StateEquation.ofParams, hguard, if_neg,
    if_false, gt_iff_lt, not_lt.mp hguard]
  field_simp
  ring

/-- C2 witness: the round trip at `p0 = 2`, `rho0 = 3`, `b = 5`,
`rho = 7`. -/
theorem stateEq_roundtrip_recovers_rho_witness :
    (2 : ℚ) ≠ 0 ∧ (3 : ℚ) ≠ 0 ∧
    (SolidWallPressureBC.post_loop
        (SolidWallPressureBC.ofParams 3 2 5 0 0 0)
        { p := StateEquation.loop (StateEquation.ofParams 2 3 5) 7,
          wij := 0, rho := 0 } : SWPBCAcc ℚ).rho = 7 :=
  ⟨by simp, by simp,
    stateEq_roundtrip_recovers_rho 2 3 5 7 0 0 0 0 (by simp) (by simp)⟩

/-- Characterisation of the `SetWallVelocity` accumulation fold: starting
from any state, it adds the list sums of the kernel weights and the
weighted velocities. -/
lemma SetWallVelocity.foldl_spec {α : Type} [LinearOrderedField α]
    (ns : List (SWVNb α)) :
    ∀ s : SWVAcc α,
      (ns.foldl SetWallVelocity.loop s).wij
          = s.wij + (ns.map fun n => n.WIJ).sum ∧
      (ns.foldl SetWallVelocity.loop s).uf
          = s.uf + (ns.map fun n => n.u * n.WIJ).sum ∧
      (ns.foldl SetWallVelocity.loop s).vf
          = s.vf + (ns.map fun n => n.v * n.WIJ).sum ∧
      (ns.foldl SetWallVelocity.loop s).wf
          = s.wf + (ns.map fun n => n.w * n.WIJ).sum := by
  induction ns with
  | nil => intro s; simp
  | cons n t ih =>
    intro s
    obtain ⟨hw, hu, hv, hww⟩ := ih (SetWallVelocity.loop s n)
    simp only [List.foldl_cons, List.map_cons, List.sum_cons]
    refine ⟨?_, ?_, ?_, ?_⟩
    · rw [hw]; simp only [SetWallVelocity.loop]; ring
    · rw [hu]; simp only [SetWallVelocity.loop]; ring
    · rw [hv]; simp only [SetWallVelocity.loop]; ring
    · rw [hww]; simp only [SetWallVelocity.loop]; ring

/-- In a list of nonnegative kernel weights summing to zero, every
weighted term vanishes, so every weighted sum over the list is zero. -/
lemma weighted_sum_zero_of_nonneg {α : Type} [LinearOrderedField α]
    (ns : List (SWVNb α)) (h0 : ∀ n ∈ ns, 0 ≤ n.WIJ)
    (hs : (ns.map fun n => n.WIJ).sum = 0) (f : SWVNb α → α) :
    (ns.map fun n => f n * n.WIJ).sum = 0 := by
  induction ns with
  | nil => simp
  | cons n t ih =>
    simp only [List.map_cons, List.sum_cons] at hs ⊢
    have hn : 0 ≤ n.WIJ := h0 n (List.mem_cons_self n t)
    have ht : 0 ≤ (t.map fun n => n.WIJ).sum :=
      List.sum_nonneg (by
        intro x hx
        obtain ⟨m, hm, rfl⟩ := List.mem_map.mp hx
        exact h0 m (List.mem_cons_of_mem n hm))
    have hWn : n.WIJ = 0 := by linarith
    have hts : (t.map fun n => n.WIJ).sum = 0 := by linarith
    rw [hWn, mul_zero, zero_add]
    exact ih (fun m hm => h0 m (List.mem_cons_of_mem n hm)) hts

/-- C3: each pass of `MomentumEquationPressureGradient.loop` adds to the
physical channel the density-weighted pair-averaged pressure
`(rho_b*p_a + rho_a*p_b)/(rho_a + rho_b)` scaled by `-(1/m_a)*(V_a^2+V_b^2)`
times the kernel gradient, and to the transport-velocity channel only the
background-pressure term `-(pb/m_a)*(V_a^2+V_b^2)` times the kernel
gradient; the physical channel is independent of `pb` and the
transport-velocity channel is independent of the particle pressures. -/
theorem pressure_gradient_loop_channels
    (c : MEPGCfg ℝ) (d : MEPGDest ℝ) (s : MEPGAcc ℝ) (n : MEPGNb ℝ) :
    ((MomentumEquationPressureGradient.loop c d s n).au
        = s.au + -((n.rho * d.p + d.rho * n.p) / (d.rho + n.rho))
            * (1 / d.m) * (1 / d.V * (1 / d.V) + 1 / n.V * (1 / n.V))
            * n.dw1 ∧
      (MomentumEquationPressureGradient.loop c d s n).av
        = s.av + -((n.rho * d.p + d.rho * n.p) / (d.rho + n.rho))
            * (1 / d.m) * (1 / d.V * (1 / d.V) + 1 / n.V * (1 / n.V))
            * n.dw2 ∧
      (MomentumEquationPressureGradient.loop c d s n).aw
        = s.aw + -((n.rho * d.p + d.rho * n.p) / (d.rho + n.rho))
            * (1 / d.m) * (1 / d.V * (1 / d.V) + 1 / n.V * (1 / n.V))
            * n.dw3) ∧
    ((MomentumEquationPressureGradient.loop c d s n).auhat
        = s.auhat + -(c.pb / d.m)
            * (1 / d.V * (1 / d.V) + 1 / n.V * (1 / n.V)) * n.dw1 ∧
      (MomentumEquationPressureGradient.loop c d s n).avhat
        = s.avhat + -(c.pb / d.m)
            * (1 / d.V * (1 / d.V) + 1 / n.V * (1 / n.V)) * n.dw2 ∧
      (MomentumEquationPressureGradient.loop c d s n).awhat
        = s.awhat + -(c.pb / d.m)
            * (1 / d.V * (1 / d.V) + 1 / n.V * (1 / n.V)) * n.dw3) ∧
    (∀ pb' : ℝ,
      (MomentumEquationPressureGradient.loop
          { c with pb := pb' } d s n).au
        = (MomentumEquationPressureGradient.loop c d s n).au ∧
      (MomentumEquationPressureGradient.loop
          { c with pb := pb' } d s n).av
        = (MomentumEquationPressureGradient.loop c d s n).av ∧
      (MomentumEquationPressureGradient.loop
          { c with pb := pb' } d s n).aw
        = (MomentumEquationPressureGradient.loop c d s n).aw) ∧
    (∀ pa' pb'' : ℝ,
      (MomentumEquationPressureGradient.loop c
          { d with p := pa' } s { n with p := pb'' }).auhat
        = (MomentumEquationPressureGradient.loop c d s n).auhat ∧
      (MomentumEquationPressureGradient.loop c
          { d with p := pa' } s { n with p := pb'' }).avhat
        = (MomentumEquationPressureGradient.loop c d s n).avhat ∧
      (MomentumEquationPressureGradient.loop c
          { d with p := pa' } s { n with p := pb'' }).awhat
        = (MomentumEquationPressureGradient.loop c d s n).awhat) := by
  refine ⟨⟨?_, ?_, ?_⟩, ⟨?_, ?_, ?_⟩,
      fun pb' => ⟨?_, ?_, ?_⟩, fun pa' pb'' => ⟨?_, ?_, ?_⟩⟩ <;>
    simp only [MomentumEquationPressureGradient.loop] <;> ring

/-- C5: `SolidWallNoSlipBC.loop` coincides with
`MomentumEquationViscosity.loop` once the pair velocity difference is
taken to be the destination velocity minus the source ghost velocity, and
its per-pair increment is exactly the harmonic-mean viscosity factor
`(m_b/(rho_a*rho_b)) * (4*eta_a*eta_b/(eta_a+eta_b)) * (DWIJ·XIJ)/(R2IJ+EPS)`
applied to that velocity difference. -/
theorem noSlip_matches_viscosity_with_ghost_velocity
    (nu EPS : ℚ) (d : WallDest ℚ) (s : Accel ℚ) (n : NoSlipNb ℚ) :
    SolidWallNoSlipBC.loop nu EPS d s n =
      MomentumEquationViscosity.loop nu EPS d.rho s
        { s_rho := n.s_rho, s_m := n.s_m,
          v1 := d.u - n.ug, v2 := d.v - n.vg, v3 := d.w - n.wg,
          r2 := n.r2, dw1 := n.dw1, dw2 := n.dw2, dw3 := n.dw3,
          x1 := n.x1, x2 := n.x2, x3 := n.x3 } ∧
    (SolidWallNoSlipBC.loop nu EPS d s n).au
      = s.au + n.s_m / (d.rho * n.s_rho)
          * (4 * (nu * d.rho) * (nu * n.s_rho)
              / (nu * d.rho + nu * n.s_rho))
          * ((n.dw1 * n.x1 + n.dw2 * n.x2 + n.dw3 * n.x3) / (n.r2 + EPS))
          * (d.u - n.ug) ∧
    (SolidWallNoSlipBC.loop nu EPS d s n).av
      = s.av + n.s_m / (d.rho * n.s_rho)
          * (4 * (nu * d.rho) * (nu * n.s_rho)
              / (nu * d.rho + nu * n.s_rho))
          * ((n.dw1 * n.x1 + n.dw2 * n.x2 + n.dw3 * n.x3) / (n.r2 + EPS))
          * (d.v - n.vg) ∧
    (SolidWallNoSlipBC.loop nu EPS d s n).aw
      = s.aw + n.s_m / (d.rho * n.s_rho)
          * (4 * (nu * d.rho) * (nu * n.s_rho)
              / (nu * d.rho + nu * n.s_rho))
          * ((n.dw1 * n.x1 + n.dw2 * n.x2 + n.dw3 * n.x3) / (n.r2 + EPS))
          * (d.w - n.wg) := by
  refine ⟨rfl, ?_, ?_, ?_⟩ <;>
    simp only [SolidWallNoSlipBC.loop] <;> ring

/-- C10: a pair that is not approaching (`VIJ·XIJ >= 0`) contributes
nothing in `MomentumEquationArtificialViscosity.loop`: the accelerations
are left unchanged. -/
theorem artificial_viscosity_inactive_for_separating_pairs
    (alpha c0 EPS : ℚ) (s : Accel ℚ) (n : AVNb ℚ)
    (h : 0 ≤ n.v1 * n.x1 + n.v2 * n.x2 + n.v3 * n.x3) :
    MomentumEquationArtificialViscosity.loop alpha c0 EPS s n = s := by
  have hlt : ¬ (n.v1 * n.x1 + n.v2 * n.x2 + n.v3 * n.x3 < 0) := not_lt.mpr h
  simp only [MomentumEquationArtificialViscosity.loop, hlt, if_false,
    neg_zero, zero_mul, add_zero]

/-- C10 witness: a concrete separating pair (`VIJ·XIJ = 0`) leaves a
concrete acceleration state untouched. -/
theorem artificial_viscosity_inactive_witness :
    (0 : ℚ) ≤ (⟨1, 1, 1, 1, 1, 0, 0, 0, 1, 0, 1, 1, 1⟩ : AVNb ℚ).v1
          * (⟨1, 1, 1, 1, 1, 0, 0, 0, 1, 0, 1, 1, 1⟩ : AVNb ℚ).x1
        + (⟨1, 1, 1, 1, 1, 0, 0, 0, 1, 0, 1, 1, 1⟩ : AVNb ℚ).v2
          * (⟨1, 1, 1, 1, 1, 0, 0, 0, 1, 0, 1, 1, 1⟩ : AVNb ℚ).x2
        + (⟨1, 1, 1, 1, 1, 0, 0, 0, 1, 0, 1, 1, 1⟩ : AVNb ℚ).v3
          * (⟨1, 1, 1, 1, 1, 0, 0, 0, 1, 0, 1, 1, 1⟩ : AVNb ℚ).x3 ∧
    MomentumEquationArtificialViscosity.loop 1 1 1 (⟨1, 2, 3⟩ : Accel ℚ)
        ⟨1, 1, 1, 1, 1, 0, 0, 0, 1, 0, 1, 1, 1⟩ = ⟨1, 2, 3⟩ :=
  ⟨by simp,
    artificial_viscosity_inactive_for_separating_pairs 1 1 1 ⟨1, 2, 3⟩
      ⟨1, 1, 1, 1, 1, 0, 0, 0, 1, 0, 1, 1, 1⟩ (by simp)⟩

/-- C4: over a full `SetWallVelocity` pass, when the accumulated weight
passes the guard the filtered velocity is the kernel-weighted average of
the neighbor velocities; the ghost velocity is always
`2*(prescribed) - filtered`; with nonnegative kernel weights accumulating
to zero the ghost velocity is twice the prescribed wall velocity; and a
filtered velocity equal to the prescribed one yields a ghost velocity
equal to the prescribed one. -/
theorem setWallVelocity_filtered_and_ghost
    (d : SWVDest ℚ) (s0 : SWVAcc ℚ) (ns : List (SWVNb ℚ)) :
    ((ns.foldl SetWallVelocity.loop (SetWallVelocity.initPhase s0)).wij
        > 1 / 10 ^ 12 →
      (SetWallVelocity.run d ns s0).uf
          = (ns.map fun n => n.u * n.WIJ).sum / (ns.map fun n => n.WIJ).sum ∧
      (SetWallVelocity.run d ns s0).vf
          = (ns.map fun n => n.v * n.WIJ).sum / (ns.map fun n => n.WIJ).sum ∧
      (SetWallVelocity.run d ns s0).wf
          = (ns.map fun n => n.w * n.WIJ).sum / (ns.map fun n => n.WIJ).sum) ∧
    ((SetWallVelocity.run d ns s0).ug
        = 2 * d.u - (SetWallVelocity.run d ns s0).uf ∧
      (SetWallVelocity.run d ns s0).vg
        = 2 * d.v - (SetWallVelocity.run d ns s0).vf ∧
      (SetWallVelocity.run d ns s0).wg
        = 2 * d.w - (SetWallVelocity.run d ns s0).wf) ∧
    ((∀ n ∈ ns, 0 ≤ n.WIJ) →
      (ns.foldl SetWallVelocity.loop (SetWallVelocity.initPhase s0)).wij = 0 →
      (SetWallVelocity.run d ns s0).ug = 2 * d.u ∧
      (SetWallVelocity.run d ns s0).vg = 2 * d.v ∧
      (SetWallVelocity.run d ns s0).wg = 2 * d.w) ∧
    ((SetWallVelocity.run d ns s0).uf = d.u →
      (SetWallVelocity.run d ns s0).ug = d.u) ∧
    ((SetWallVelocity.run d ns s0).vf = d.v →
      (SetWallVelocity.run d ns s0).vg = d.v) ∧
    ((SetWallVelocity.run d ns s0).wf = d.w →
      (SetWallVelocity.run d ns s0).wg = d.w) := by
  obtain ⟨hw0, hu0, hv0, hww0⟩ :=
    SetWallVelocity.foldl_spec ns (SetWallVelocity.initPhase s0)
  have hw : (ns.foldl SetWallVelocity.loop
      (SetWallVelocity.initPhase s0)).wij = (ns.map fun n => n.WIJ).sum := by
    rw [hw0]; simp [SetWallVelocity.initPhase]
  have hu : (ns.foldl SetWallVelocity.loop
      (SetWallVelocity.initPhase s0)).uf
        = (ns.map fun n => n.u * n.WIJ).sum := by
    rw [hu0]; simp [SetWallVelocity.initPhase]
  have hv : (ns.foldl SetWallVelocity.loop
      (SetWallVelocity.initPhase s0)).vf
        = (ns.map fun n => n.v * n.WIJ).sum := by
    rw [hv0]; simp [SetWallVelocity.initPhase]
  have hww : (ns.foldl SetWallVelocity.loop
      (SetWallVelocity.initPhase s0)).wf
        = (ns.map fun n => n.w * n.WIJ).sum := by
    rw [hww0]; simp [SetWallVelocity.initPhase]
  have hghost :
      (SetWallVelocity.run d ns s0).ug
          = 2 * d.u - (SetWallVelocity.run d ns s0).uf ∧
      (SetWallVelocity.run d ns s0).vg
          = 2 * d.v - (SetWallVelocity.run d ns s0).vf ∧
      (SetWallVelocity.run d ns s0).wg
          = 2 * d.w - (SetWallVelocity.run d ns s0).wf :=
    ⟨rfl, rfl, rfl⟩
  refine ⟨?_, hghost, ?_, ?_, ?_, ?_⟩
  · intro hg
    simp only [SetWallVelocity.run, SetWallVelocity.post_loop, if_pos hg]
    rw [hu, hv, hww, hw]
    exact ⟨rfl, rfl, rfl⟩
  · intro hnn hz
    have hsum : (ns.map fun n => n.WIJ).sum = 0 := by rw [← hw]; exact hz
    have hguard : ¬ ((ns.foldl SetWallVelocity.loop
        (SetWallVelocity.initPhase s0)).wij > 1 / 10 ^ 12) := by
      rw [hw, hsum]; norm_num
    have huf : (SetWallVelocity.run d ns s0).uf = 0 := by
      simp only [SetWallVelocity.run, SetWallVelocity.post_loop, if_neg hguard]
      rw [hu]
      exact weighted_sum_zero_of_nonneg ns hnn hsum _
    have hvf : (SetWallVelocity.run d ns s0).vf = 0 := by
      simp only [SetWallVelocity.run, SetWallVelocity.post_loop, if_neg hguard]
      rw [hv]
      exact weighted_sum_zero_of_nonneg ns hnn hsum _
    have hwf : (SetWallVelocity.run d ns s0).wf = 0 := by
      simp only [SetWallVelocity.run, SetWallVelocity.post_loop, if_neg hguard]
      rw [hww]
      exact weighted_sum_zero_of_nonneg ns hnn hsum _
    refine ⟨?_, ?_, ?_⟩
    · rw [hghost.1, huf, sub_zero]
    · rw [hghost.2.1, hvf, sub_zero]
    · rw [hghost.2.2, hwf, sub_zero]
  · intro h; rw [hghost.1, h]; ring
  · intro h; rw [hghost.2.1, h]; ring
  · intro h; rw [hghost.2.2, h]; ring

/-- Guard evaluation for the C4 witness: one neighbor of unit kernel
weight accumulates a weight of `1`, which passes the `1e-12` guard. -/
lemma swv_witness_guard :
    (([⟨2, 4, 6, 1⟩] : List (SWVNb ℚ)).foldl SetWallVelocity.loop
        (SetWallVelocity.initPhase ⟨9, 9, 9, 9, 9, 9, 9⟩)).wij
      > 1 / 10 ^ 12 := by
  norm_num [SetWallVelocity.loop, SetWallVelocity.initPhase]

/-- Zero-weight evaluation for the C4 witness: one neighbor of zero kernel
weight accumulates a weight of `0`. -/
lemma swv_witness_zero_weight :
    (([⟨9, 8, 7, 0⟩] : List (SWVNb ℚ)).foldl SetWallVelocity.loop
        (SetWallVelocity.initPhase ⟨9, 9, 9, 9, 9, 9, 9⟩)).wij = 0 := by
  norm_num [SetWallVelocity.loop, SetWallVelocity.initPhase]

/-- C4 witness: a wall particle with prescribed velocity `(2,4,6)` and a
single fluid neighbor of velocity `(2,4,6)` and weight `1` gets filtered
velocity equal to the weighted average and ghost velocity
`2*(prescribed) - filtered`; with a single neighbor of weight `0` the
ghost velocity is twice the prescribed velocity. -/
theorem setWallVelocity_filtered_and_ghost_witness :
    ((([⟨2, 4, 6, 1⟩] : List (SWVNb ℚ)).foldl SetWallVelocity.loop
        (SetWallVelocity.initPhase ⟨9, 9, 9, 9, 9, 9, 9⟩)).wij
      > 1 / 10 ^ 12) ∧
    (SetWallVelocity.run ⟨2, 4, 6⟩ [⟨2, 4, 6, 1⟩]
        (⟨9, 9, 9, 9, 9, 9, 9⟩ : SWVAcc ℚ)).uf
      = (([⟨2, 4, 6, 1⟩] : List (SWVNb ℚ)).map fun n => n.u * n.WIJ).sum
          / (([⟨2, 4, 6, 1⟩] : List (SWVNb ℚ)).map fun n => n.WIJ).sum ∧
    (SetWallVelocity.run ⟨2, 4, 6⟩ [⟨2, 4, 6, 1⟩]
        (⟨9, 9, 9, 9, 9, 9, 9⟩ : SWVAcc ℚ)).ug
      = 2 * 2 - (SetWallVelocity.run ⟨2, 4, 6⟩ [⟨2, 4, 6, 1⟩]
          (⟨9, 9, 9, 9, 9, 9, 9⟩ : SWVAcc ℚ)).uf ∧
    (∀ n ∈ ([⟨9, 8, 7, 0⟩] : List (SWVNb ℚ)), 0 ≤ n.WIJ) ∧
    (SetWallVelocity.run ⟨2, 4, 6⟩ [⟨9, 8, 7, 0⟩]
        (⟨9, 9, 9, 9, 9, 9, 9⟩ : SWVAcc ℚ)).ug = 2 * 2 :=
  ⟨swv_witness_guard,
    ((setWallVelocity_filtered_and_ghost ⟨2, 4, 6⟩ ⟨9, 9, 9, 9, 9, 9, 9⟩
        [⟨2, 4, 6, 1⟩]).1 swv_witness_guard).1,
    (setWallVelocity_filtered_and_ghost ⟨2, 4, 6⟩ ⟨9, 9, 9, 9, 9, 9, 9⟩
        [⟨2, 4, 6, 1⟩]).2.1.1,
    by simp,
    ((setWallVelocity_filtered_and_ghost ⟨2, 4, 6⟩ ⟨9, 9, 9, 9, 9, 9, 9⟩
        [⟨9, 8, 7, 0⟩]).2.2.1 (by simp) swv_witness_zero_weight).1⟩

/-- C6: the body-force damping factor equals
`0.5*(sin((t/tdamp - 0.5)*pi) + 1)` whenever `t < tdamp`, equals `1`
whenever `t >= tdamp`, vanishes at `t = 0` for a positive damping time,
and `MomentumEquationPressureGradient.post_loop` adds each body-force
component scaled by exactly this factor. -/
theorem body_force_damping_profile (tdamp t : ℝ) :
    (t < tdamp →
      dampingFactor tdamp t
        = 0.5 * (Real.sin ((t / tdamp - 0.5) * Real.pi) + 1)) ∧
    (tdamp ≤ t → dampingFactor tdamp t = 1) ∧
    (0 < tdamp → dampingFactor tdamp 0 = 0) ∧
    ∀ (c : MEPGCfg ℝ) (s : MEPGAcc ℝ),
      (MomentumEquationPressureGradient.post_loop c t s).au
          = s.au + c.gx * dampingFactor c.tdamp t ∧
      (MomentumEquationPressureGradient.post_loop c t s).av
          = s.av + c.gy * dampingFactor c.tdamp t ∧
      (MomentumEquationPressureGradient.post_loop c t s).aw
          = s.aw + c.gz * dampingFactor c.tdamp t := by
  refine ⟨?_, ?_, ?_, fun c s => ⟨rfl, rfl, rfl⟩⟩
  · intro h
    rw [dampingFactor, if_pos h,
      show (-0.5 + t / tdamp) * Real.pi = (t / tdamp - 0.5) * Real.pi
        from by ring]
    norm_num
  · intro h
    rw [dampingFactor, if_neg (not_lt.mpr h)]
    norm_num
  · intro h
    rw [dampingFactor, if_pos h,
      show (-0.5 + 0 / tdamp) * Real.pi = -(Real.pi / 2)
        from by rw [zero_div]; ring,
      Real.sin_neg, Real.sin_pi_div_two]
    norm_num

/-- At the reference density, the state equation with `b = 1` yields zero
pressure (for a nonzero reference density). -/
lemma stateEq_at_reference_density (p0 rho0 : ℝ) (h : rho0 ≠ 0) :
    StateEquation.loop (StateEquation.ofParams p0 rho0 1) rho0 = 0 := by
  simp [StateEquation.loop, StateEquation.ofParams, div_self h]

/-- A pressure-gradient loop step with both pressures zero leaves the
physical acceleration unchanged. -/
lemma mepg_loop_phys_fixed (c : MEPGCfg ℝ) (d : MEPGDest ℝ)
    (hdp : d.p = 0) (s : MEPGAcc ℝ) (n : MEPGNb ℝ) (hnp : n.p = 0) :
    (MomentumEquationPressureGradient.loop c d s n).au = s.au ∧
    (MomentumEquationPressureGradient.loop c d s n).av = s.av ∧
    (MomentumEquationPressureGradient.loop c d s n).aw = s.aw := by
  refine ⟨?_, ?_, ?_⟩ <;>
    simp [MomentumEquationPressureGradient.loop, hdp, hnp]

/-- The pressure-gradient fold with all pressures zero leaves the physical
acceleration of any starting state unchanged. -/
lemma mepg_foldl_phys_fixed (c : MEPGCfg ℝ) (d : MEPGDest ℝ)
    (hdp : d.p = 0) :
    ∀ (ns : List (MEPGNb ℝ)), (∀ n ∈ ns, n.p = 0) → ∀ s : MEPGAcc ℝ,
      (ns.foldl (MomentumEquationPressureGradient.loop c d) s).au = s.au ∧
      (ns.foldl (MomentumEquationPressureGradient.loop c d) s).av = s.av ∧
      (ns.foldl (MomentumEquationPressureGradient.loop c d) s).aw = s.aw := by
  intro ns
  induction ns with
  | nil => intro _ s; exact ⟨rfl, rfl, rfl⟩
  | cons n t ih =>
    intro h s
    have h1 := mepg_loop_phys_fixed c d hdp s n (h n (List.mem_cons_self n t))
    have h2 := ih (fun m hm => h m (List.mem_cons_of_mem n hm))
      (MomentumEquationPressureGradient.loop c d s n)
    refine ⟨?_, ?_, ?_⟩
    · rw [List.foldl_cons, h2.1, h1.1]
    · rw [List.foldl_cons, h2.2.1, h1.2.1]
    · rw [List.foldl_cons, h2.2.2, h1.2.2]

/-- A viscosity loop step with zero pair velocity difference leaves the
acceleration unchanged. -/
lemma visc_loop_fixed (nu EPS drho : ℝ) (s : Accel ℝ) (n : ViscNb ℝ)
    (h1 : n.v1 = 0) (h2 : n.v2 = 0) (h3 : n.v3 = 0) :
    (MomentumEquationViscosity.loop nu EPS drho s n).au = s.au ∧
    (MomentumEquationViscosity.loop nu EPS drho s n).av = s.av ∧
    (MomentumEquationViscosity.loop nu EPS drho s n).aw = s.aw := by
  refine ⟨?_, ?_, ?_⟩ <;>
    simp [MomentumEquationViscosity.loop, h1, h2, h3]

/-- The viscosity fold with all pair velocity differences zero leaves the
acceleration of any starting state unchanged. -/
lemma visc_foldl_fixed (nu EPS drho : ℝ) :
    ∀ (ns : List (ViscNb ℝ)),
      (∀ n ∈ ns, n.v1 = 0 ∧ n.v2 = 0 ∧ n.v3 = 0) → ∀ s : Accel ℝ,
      (ns.foldl (MomentumEquationViscosity.loop nu EPS drho) s).au = s.au ∧
      (ns.foldl (MomentumEquationViscosity.loop nu EPS drho) s).av = s.av ∧
      (ns.foldl (MomentumEquationViscosity.loop nu EPS drho) s).aw = s.aw := by
  intro ns
  induction ns with
  | nil => intro _ s; exact ⟨rfl, rfl, rfl⟩
  | cons n t ih =>
    intro h s
    obtain ⟨ha, hb, hc⟩ := h n (List.mem_cons_self n t)
    have h1 := visc_loop_fixed nu EPS drho s n ha hb hc
    have h2 := ih (fun m hm => h m (List.mem_cons_of_mem n hm))
      (MomentumEquationViscosity.loop nu EPS drho s n)
    refine ⟨?_, ?_, ?_⟩
    · rw [List.foldl_cons, h2.1, h1.1]
    · rw [List.foldl_cons, h2.2.1, h1.2.1]
    · rw [List.foldl_cons, h2.2.2, h1.2.2]

/-- C7: zeroth-order patch test.  For a destination at rest with uniform
density `rho0` whose pressure (and all of whose neighbors' pressures) come
from the state equation with `b = 1` (hence are zero), and with zero body
force, a full `MomentumEquationPressureGradient` pass yields exactly zero
physical acceleration; and a full `MomentumEquationViscosity` pass over
pairs with zero velocity differences yields exactly zero acceleration. -/
theorem zeroth_order_patch_test (p0 rho0 : ℝ) (hrho0 : rho0 ≠ 0)
    (c : MEPGCfg ℝ) (hgx : c.gx = 0) (hgy : c.gy = 0) (hgz : c.gz = 0)
    (d : MEPGDest ℝ) (_hdrho : d.rho = rho0)
    (hdp : d.p = StateEquation.loop (StateEquation.ofParams p0 rho0 1) rho0)
    (ns : List (MEPGNb ℝ))
    (hns : ∀ n ∈ ns, n.rho = rho0 ∧
      n.p = StateEquation.loop (StateEquation.ofParams p0 rho0 1) rho0)
    (t : ℝ) (s0 : MEPGAcc ℝ)
    (nu EPS drho : ℝ) (vns : List (ViscNb ℝ))
    (hv : ∀ n ∈ vns, n.v1 = 0 ∧ n.v2 = 0 ∧ n.v3 = 0) (a0 : Accel ℝ) :
    ((MomentumEquationPressureGradient.run c d ns t s0).au = 0 ∧
      (MomentumEquationPressureGradient.run c d ns t s0).av = 0 ∧
      (MomentumEquationPressureGradient.run c d ns t s0).aw = 0) ∧
    ((MomentumEquationViscosity.run nu EPS drho vns a0).au = 0 ∧
      (MomentumEquationViscosity.run nu EPS drho vns a0).av = 0 ∧
      (MomentumEquationViscosity.run nu EPS drho vns a0).aw = 0) := by
  have hp := stateEq_at_reference_density p0 rho0 hrho0
  have hdp0 : d.p = 0 := by rw [hdp, hp]
  have hns0 : ∀ n ∈ ns, n.p = 0 := fun n hn => by rw [(hns n hn).2, hp]
  have hA := mepg_foldl_phys_fixed c d hdp0 ns hns0
    (MomentumEquationPressureGradient.initPhase s0)
  have hB := visc_foldl_fixed nu EPS drho vns hv
    (MomentumEquationViscosity.initPhase a0)
  constructor
  · refine ⟨?_, ?_, ?_⟩
    · simp only [MomentumEquationPressureGradient.run,
        MomentumEquationPressureGradient.post_loop, hgx, zero_mul, add_zero]
      rw [hA.1]; rfl
    · simp only [MomentumEquationPressureGradient.run,
        MomentumEquationPressureGradient.post_loop, hgy, zero_mul, add_zero]
      rw [hA.2.1]; rfl
    · simp only [MomentumEquationPressureGradient.run,
        MomentumEquationPressureGradient.post_loop, hgz, zero_mul, add_zero]
      rw [hA.2.2]; rfl
  · refine ⟨?_, ?_, ?_⟩
    · rw [MomentumEquationViscosity.run, hB.1]; rfl
    · rw [MomentumEquationViscosity.run, hB.2.1]; rfl
    · rw [MomentumEquationViscosity.run, hB.2.2]; rfl

/-- C7 witness: the patch test evaluated at a concrete uniform
configuration (`p0 = rho0 = 1`, one neighbor, pressures from the state
equation, zero body force, zero pair velocity differences). -/
theorem zeroth_order_patch_test_witness :
    (1 : ℝ) ≠ 0 ∧
    (∀ n ∈ ([⟨1, StateEquation.loop (StateEquation.ofParams 1 1 1) 1,
          1, 2, 3, 4⟩] : List (MEPGNb ℝ)),
      n.rho = 1 ∧
      n.p = StateEquation.loop (StateEquation.ofParams 1 1 1) 1) ∧
    (∀ n ∈ ([⟨1, 1, 0, 0, 0, 1, 1, 1, 1, 1, 1, 1⟩] : List (ViscNb ℝ)),
      n.v1 = 0 ∧ n.v2 = 0 ∧ n.v3 = 0) ∧
    (MomentumEquationPressureGradient.run ⟨5, 0, 0, 0, 0⟩
        ⟨1, 1, StateEquation.loop (StateEquation.ofParams 1 1 1) 1, 1⟩
        [⟨1, StateEquation.loop (StateEquation.ofParams 1 1 1) 1, 1, 2, 3, 4⟩]
        0 ⟨7, 7, 7, 7, 7, 7⟩).au = 0 ∧
    (MomentumEquationViscosity.run (1 : ℝ) 1 1
        [⟨1, 1, 0, 0, 0, 1, 1, 1, 1, 1, 1, 1⟩] ⟨8, 8, 8⟩).au = 0 :=
  ⟨one_ne_zero, by simp, by simp,
    (zeroth_order_patch_test 1 1 one_ne_zero ⟨5, 0, 0, 0, 0⟩ rfl rfl rfl
      ⟨1, 1, StateEquation.loop (StateEquation.ofParams 1 1 1) 1, 1⟩ rfl rfl
      [⟨1, StateEquation.loop (StateEquation.ofParams 1 1 1) 1, 1, 2, 3, 4⟩]
      (by simp) 0 ⟨7, 7, 7, 7, 7, 7⟩ 1 1 1
      [⟨1, 1, 0, 0, 0, 1, 1, 1, 1, 1, 1, 1⟩] (by simp) ⟨8, 8, 8⟩).1.1,
    (zeroth_order_patch_test 1 1 one_ne_zero ⟨5, 0, 0, 0, 0⟩ rfl rfl rfl
      ⟨1, 1, StateEquation.loop (StateEquation.ofParams 1 1 1) 1, 1⟩ rfl rfl
      [⟨1, StateEquation.loop (StateEquation.ofParams 1 1 1) 1, 1, 2, 3, 4⟩]
      (by simp) 0 ⟨7, 7, 7, 7, 7, 7⟩ 1 1 1
      [⟨1, 1, 0, 0, 0, 1, 1, 1, 1, 1, 1, 1⟩] (by simp) ⟨8, 8, 8⟩).2.1⟩

/-- C8 counterexample: `ContinuitySolid` defines no `initialize` phase, so
a pass over an empty neighbor list leaves an incoming accumulator value of
`1` untouched instead of zeroing it. -/
theorem continuitySolid_does_not_zero_arho :
    ¬ (ContinuitySolid.run (⟨1, 0, 0, 0⟩ : WallDest ℚ) [] 1 = 0) := by
  simp [ContinuitySolid.run]

/-- The `ContinuitySolid` pass equals the incoming accumulator plus the
sum of the per-pair contributions. -/
lemma continuitySolid_run_spec {α : Type} [LinearOrderedField α]
    (d : WallDest α) :
    ∀ (ns : List (CSNb α)) (a0 : α),
      ContinuitySolid.run d ns a0
        = a0 + (ns.map (ContinuitySolid.contrib d)).sum := by
  intro ns
  induction ns with
  | nil => intro a0; simp [ContinuitySolid.run]
  | cons n t ih =>
    intro a0
    show (n :: t).foldl (ContinuitySolid.loop d) a0
        = a0 + ((n :: t).map (ContinuitySolid.contrib d)).sum
    rw [List.foldl_cons, List.map_cons, List.sum_cons]
    calc t.foldl (ContinuitySolid.loop d) (ContinuitySolid.loop d a0 n)
        = ContinuitySolid.loop d a0 n
            + (t.map (ContinuitySolid.contrib d)).sum :=
          ih (ContinuitySolid.loop d a0 n)
      _ = a0 + (ContinuitySolid.contrib d n
            + (t.map (ContinuitySolid.contrib d)).sum) := by
          simp only [ContinuitySolid.loop, ContinuitySolid.contrib]; ring

/-- C8 (amended): `ContinuityEquation`, `SetWallVelocity`,
`SolidWallPressureBC`, `ExtrapolateUhat`, the momentum equations and the
viscosity operator all zero their destination accumulators in their
`initialize` phase, but `ContinuitySolid` defines no `initialize` of its
own: its pass is the bare accumulation fold, adding the per-pair
contributions on top of whatever value `arho` already holds. -/
theorem accumulator_init_zeroing_amended :
    (∀ a : ℚ, ContinuityEquation.initPhase a = 0) ∧
    (∀ s : SWVAcc ℚ, (SetWallVelocity.initPhase s).uf = 0 ∧
      (SetWallVelocity.initPhase s).vf = 0 ∧
      (SetWallVelocity.initPhase s).wf = 0 ∧
      (SetWallVelocity.initPhase s).wij = 0) ∧
    (∀ s : SWPBCAcc ℚ, (SolidWallPressureBC.initPhase s).p = 0 ∧
      (SolidWallPressureBC.initPhase s).wij = 0) ∧
    (∀ s : EUAcc ℚ, ExtrapolateUhat.initPhase s = ⟨0, 0⟩) ∧
    (∀ s : MEPGAcc ℚ,
      MomentumEquationPressureGradient.initPhase s = ⟨0, 0, 0, 0, 0, 0⟩) ∧
    (∀ s : Accel ℚ, MomentumEquationViscosity.initPhase s = ⟨0, 0, 0⟩) ∧
    (∀ (d : WallDest ℚ) (ns : List (CSNb ℚ)) (a0 : ℚ),
      ContinuitySolid.run d ns a0
        = a0 + (ns.map (ContinuitySolid.contrib d)).sum) :=
  ⟨fun _ => rfl, fun _ => ⟨rfl, rfl, rfl, rfl⟩, fun _ => ⟨rfl, rfl⟩,
    fun _ => rfl, fun _ => rfl, fun _ => rfl,
    fun d ns a0 => continuitySolid_run_spec d ns a0⟩

/-- C9 counterexample: constructing `StateEquation` with `rho0 = 0` and
`SolidWallPressureBC` with `p0 = 0` succeeds (the constructors store the
parameters verbatim, raising nothing), and evaluation then proceeds: the
state-equation loop produces `1*(2/0 - 1) = -1` (total division by zero
yields `0` in the embedding) and the wall-pressure finalize produces a
density of `0`. -/
theorem construction_accepts_zero_constants :
    (StateEquation.ofParams (1 : ℚ) 0 1
        = { p0 := 1, rho0 := 0, b := 1 } ∧
      StateEquation.loop (StateEquation.ofParams (1 : ℚ) 0 1) 2 = -1) ∧
    (SolidWallPressureBC.ofParams (0 : ℚ) 0 1 0 0 0
        = { rho0 := 0, p0 := 0, b := 1, gx := 0, gy := 0, gz := 0 } ∧
      (SolidWallPressureBC.post_loop
          (SolidWallPressureBC.ofParams (0 : ℚ) 0 1 0 0 0) ⟨1, 1, 5⟩).rho
        = 0) := by
  refine ⟨⟨rfl, ?_⟩, ⟨rfl, ?_⟩⟩ <;>
    norm_num [StateEquation.loop, StateEquation.ofParams,
      SolidWallPressureBC.post_loop, SolidWallPressureBC.ofParams]

/-- C9 (amended): no construction-time validation exists.  `__init__` of
both operators stores any parameters (zero included) verbatim, and the
later divisions are not guarded by construction: with `rho0 = 0` the
state-equation loop still evaluates (to `p0*(0 - b)` under the embedding's
total division), and with `p0 = 0` the wall-pressure finalize still sets
`rho = rho0*(0 + b)`. -/
theorem construction_stores_unvalidated
    (p0 rho0 b gx gy gz rho wij r0 p : ℚ) :
    StateEquation.ofParams p0 rho0 b = { p0 := p0, rho0 := rho0, b := b } ∧
    SolidWallPressureBC.ofParams rho0 p0 b gx gy gz
      = { rho0 := rho0, p0 := p0, b := b, gx := gx, gy := gy, gz := gz } ∧
    StateEquation.loop (StateEquation.ofParams p0 0 b) rho = p0 * (0 - b) ∧
    (SolidWallPressureBC.post_loop
        (SolidWallPressureBC.ofParams rho0 0 b gx gy gz) ⟨p, wij, r0⟩).rho
      = rho0 * (0 + b) := by
  refine ⟨rfl, rfl, ?_, ?_⟩
  · simp [StateEquation.loop, StateEquation.ofParams]
  · simp [SolidWallPressureBC.post_loop, SolidWallPressureBC.ofParams]

/-- C6 witness: the damping factor evaluated at `tdamp = 2` for `t = 1`
(inside the ramp), `t = 2` (at the damping time) and `t = 0` (start of the
ramp). -/
theorem body_force_damping_profile_witness :
    dampingFactor 2 1 = 0.5 * (Real.sin ((1 / 2 - 0.5) * Real.pi) + 1) ∧
    dampingFactor 2 2 = 1 ∧
    dampingFactor 2 0 = 0 :=
  ⟨(body_force_damping_profile 2 1).1 one_lt_two,
    (body_force_damping_profile 2 2).2.1 (le_refl 2),
    (body_force_damping_profile 2 0).2.2.1 two_pos⟩
